import Mathlib

/-!
Verification of the cube-marching isosurface extractor (`src/scripts/VoxelGrid.ts`),
shallowly embedded in Lean.  JavaScript numbers are modelled as exact rationals
(all values manipulated here are small integers and halves, where rational and
IEEE double arithmetic agree).  The nested `number[][][]` grid is modelled as
nested lists of rationals; out-of-range reads use `List.getD` defaults, mirroring
the fact that in-range accesses (the only ones exercised by the verified
properties) never see the default.
-/

namespace CubeMarching

/-- Model of a three.js Vector3 with exact rational components. -/
@[ext]
structure Vec3 where
  x : ℚ
  y : ℚ
  z : ℚ
deriving DecidableEq

/-- three.js `v1.add(v2)` (value semantics). -/
def Vec3.add (a b : Vec3) : Vec3 := ⟨a.x + b.x, a.y + b.y, a.z + b.z⟩

/-- three.js `v.multiplyScalar(s)` (value semantics). -/
def Vec3.mulScalar (a : Vec3) (s : ℚ) : Vec3 := ⟨a.x * s, a.y * s, a.z * s⟩

/-- Modelled from the spec: `marchingConstants.ts` (the file defining
`CORNER_ARRAY`) is not under `src/`.  The spec fixes it as "a constant 8-entry
corner-offset table, the canonical marching-cubes corner ordering"; the
vertex-numbering diagram in `VoxelGrid.ts` (corner 0 at the cell origin, +1 in x,
+2 in y, +4 in z) pins the ordering used here.  Each entry is the integer offset
of corner `i` from the cell's anchor grid point. -/
def CORNER_ARRAY : List (ℕ × ℕ × ℕ) :=
  [(0, 0, 0), (1, 0, 0), (0, 1, 0), (1, 1, 0),
   (0, 0, 1), (1, 0, 1), (0, 1, 1), (1, 1, 1)]

/-- Modelled from the spec: `marchingConstants.ts` (the file defining
`EDGE_ARRAY`) is not under `src/`.  The spec fixes it as "a constant 12-entry
edge-to-corner-pair table"; the edge-numbering diagram in `VoxelGrid.ts` pins
which pair of corner positions each of the 12 edge indices denotes.  Each entry
holds the two endpoint corner positions of the edge, as Vector3s. -/
def EDGE_ARRAY : List (Vec3 × Vec3) :=
  [(⟨0, 0, 0⟩, ⟨1, 0, 0⟩),   -- edge 0: corners 0-1
   (⟨1, 0, 0⟩, ⟨1, 1, 0⟩),   -- edge 1: corners 1-3
   (⟨0, 1, 0⟩, ⟨1, 1, 0⟩),   -- edge 2: corners 2-3
   (⟨0, 0, 0⟩, ⟨0, 1, 0⟩),   -- edge 3: corners 0-2
   (⟨0, 0, 1⟩, ⟨1, 0, 1⟩),   -- edge 4: corners 4-5
   (⟨1, 0, 1⟩, ⟨1, 1, 1⟩),   -- edge 5: corners 5-7
   (⟨0, 1, 1⟩, ⟨1, 1, 1⟩),   -- edge 6: corners 6-7
   (⟨0, 0, 1⟩, ⟨0, 1, 1⟩),   -- edge 7: corners 4-6
   (⟨0, 0, 0⟩, ⟨0, 0, 1⟩),   -- edge 8: corners 0-4
   (⟨1, 0, 0⟩, ⟨1, 0, 1⟩),   -- edge 9: corners 1-5
   (⟨1, 1, 0⟩, ⟨1, 1, 1⟩),   -- edge 10: corners 3-7
   (⟨0, 1, 0⟩, ⟨0, 1, 1⟩)]   -- edge 11: corners 2-6

/-- A scalar field value grid, `number[][][]` in the source. -/
abbrev Grid3 := List (List (List ℚ))

/-- Read `grid[x][y][z]`; out-of-range reads return a default (never exercised
under the shape invariant, see the boundary-safety theorem). -/
def gridAt (g : Grid3) (x y z : ℕ) : ℚ :=
  ((g.getD x []).getD y []).getD z 0

/-- The z-column `grid[x][y]` of a grid. -/
def zlistAt (g : Grid3) (x y : ℕ) : List ℚ :=
  (g.getD x []).getD y []

/-- `CORNER_ARRAY[i]` with the table's own default shape. -/
def cornerAt (i : ℕ) : ℕ × ℕ × ℕ := CORNER_ARRAY.getD i (0, 0, 0)

set_option maxHeartbeats 1600000 in
/-- Modelled from the spec: `marchingConstants.ts` (the file defining
`TRIANGLE_TABLE`) is not under `src/`.  The spec fixes it as "a precomputed
256-entry triangle table.  Each entry is a sequence of edge-index triples (each
triple = one triangle), terminated by a sentinel value (-1) when fewer than the
maximum number of triangles apply.  This table is the standard marching-cubes
case table encoding."  The entries below are the standard published case table;
the verified properties depend only on the triple/terminator structure
(established in `TRIANGLE_TABLE_wellFormed` below), not on individual entries. -/
def TRIANGLE_TABLE : List (List ℤ) :=
  [[-1],
   [0, 8, 3, -1],
   [0, 1, 9, -1],
   [1, 8, 3, 9, 8, 1, -1],
   [1, 2, 10, -1],
   [0, 8, 3, 1, 2, 10, -1],
   [9, 2, 10, 0, 2, 9, -1],
   [2, 8, 3, 2, 10, 8, 10, 9, 8, -1],
   [3, 11, 2, -1],
   [0, 11, 2, 8, 11, 0, -1],
   [1, 9, 0, 2, 3, 11, -1],
   [1, 11, 2, 1, 9, 11, 9, 8, 11, -1],
   [3, 10, 1, 11, 10, 3, -1],
   [0, 10, 1, 0, 8, 10, 8, 11, 10, -1],
   [3, 9, 0, 3, 11, 9, 11, 10, 9, -1],
   [9, 8, 10, 10, 8, 11, -1],
   [4, 7, 8, -1],
   [4, 3, 0, 7, 3, 4, -1],
   [0, 1, 9, 8, 4, 7, -1],
   [4, 1, 9, 4, 7, 1, 7, 3, 1, -1],
   [1, 2, 10, 8, 4, 7, -1],
   [3, 4, 7, 3, 0, 4, 1, 2, 10, -1],
   [9, 2, 10, 9, 0, 2, 8, 4, 7, -1],
   [2, 10, 9, 2, 9, 7, 2, 7, 3, 7, 9, 4, -1],
   [8, 4, 7, 3, 11, 2, -1],
   [11, 4, 7, 11, 2, 4, 2, 0, 4, -1],
   [9, 0, 1, 8, 4, 7, 2, 3, 11, -1],
   [4, 7, 11, 9, 4, 11, 9, 11, 2, 9, 2, 1, -1],
   [3, 10, 1, 3, 11, 10, 7, 8, 4, -1],
   [1, 11, 10, 1, 4, 11, 1, 0, 4, 7, 11, 4, -1],
   [4, 7, 8, 9, 0, 11, 9, 11, 10, 11, 0, 3, -1],
   [4, 7, 11, 4, 11, 9, 9, 11, 10, -1],
   [9, 5, 4, -1],
   [9, 5, 4, 0, 8, 3, -1],
   [0, 5, 4, 1, 5, 0, -1],
   [8, 5, 4, 8, 3, 5, 3, 1, 5, -1],
   [1, 2, 10, 9, 5, 4, -1],
   [3, 0, 8, 1, 2, 10, 4, 9, 5, -1],
   [5, 2, 10, 5, 4, 2, 4, 0, 2, -1],
   [2, 10, 5, 3, 2, 5, 3, 5, 4, 3, 4, 8, -1],
   [9, 5, 4, 2, 3, 11, -1],
   [0, 11, 2, 0, 8, 11, 4, 9, 5, -1],
   [0, 5, 4, 0, 1, 5, 2, 3, 11, -1],
   [2, 1, 5, 2, 5, 8, 2, 8, 11, 4, 8, 5, -1],
   [10, 3, 11, 10, 1, 3, 9, 5, 4, -1],
   [4, 9, 5, 0, 8, 1, 8, 10, 1, 8, 11, 10, -1],
   [5, 4, 0, 5, 0, 11, 5, 11, 10, 11, 0, 3, -1],
   [5, 4, 8, 5, 8, 10, 10, 8, 11, -1],
   [9, 7, 8, 5, 7, 9, -1],
   [9, 3, 0, 9, 5, 3, 5, 7, 3, -1],
   [0, 7, 8, 0, 1, 7, 1, 5, 7, -1],
   [1, 5, 3, 3, 5, 7, -1],
   [9, 7, 8, 9, 5, 7, 10, 1, 2, -1],
   [10, 1, 2, 9, 5, 0, 5, 3, 0, 5, 7, 3, -1],
   [8, 0, 2, 8, 2, 5, 8, 5, 7, 10, 5, 2, -1],
   [2, 10, 5, 2, 5, 3, 3, 5, 7, -1],
   [7, 9, 5, 7, 8, 9, 3, 11, 2, -1],
   [9, 5, 7, 9, 7, 2, 9, 2, 0, 2, 7, 11, -1],
   [2, 3, 11, 0, 1, 8, 1, 7, 8, 1, 5, 7, -1],
   [11, 2, 1, 11, 1, 7, 7, 1, 5, -1],
   [9, 5, 8, 8, 5, 7, 10, 1, 3, 10, 3, 11, -1],
   [5, 7, 0, 5, 0, 9, 7, 11, 0, 1, 0, 10, 11, 10, 0, -1],
   [11, 10, 0, 11, 0, 3, 10, 5, 0, 8, 0, 7, 5, 7, 0, -1],
   [11, 10, 5, 7, 11, 5, -1],
   [10, 6, 5, -1],
   [0, 8, 3, 5, 10, 6, -1],
   [9, 0, 1, 5, 10, 6, -1],
   [1, 8, 3, 1, 9, 8, 5, 10, 6, -1],
   [1, 6, 5, 2, 6, 1, -1],
   [1, 6, 5, 1, 2, 6, 3, 0, 8, -1],
   [9, 6, 5, 9, 0, 6, 0, 2, 6, -1],
   [5, 9, 8, 5, 8, 2, 5, 2, 6, 3, 2, 8, -1],
   [2, 3, 11, 10, 6, 5, -1],
   [11, 0, 8, 11, 2, 0, 10, 6, 5, -1],
   [0, 1, 9, 2, 3, 11, 5, 10, 6, -1],
   [5, 10, 6, 1, 9, 2, 9, 11, 2, 9, 8, 11, -1],
   [6, 3, 11, 6, 5, 3, 5, 1, 3, -1],
   [0, 8, 11, 0, 11, 5, 0, 5, 1, 5, 11, 6, -1],
   [3, 11, 6, 0, 3, 6, 0, 6, 5, 0, 5, 9, -1],
   [6, 5, 9, 6, 9, 11, 11, 9, 8, -1],
   [5, 10, 6, 4, 7, 8, -1],
   [4, 3, 0, 4, 7, 3, 6, 5, 10, -1],
   [1, 9, 0, 5, 10, 6, 8, 4, 7, -1],
   [10, 6, 5, 1, 9, 7, 1, 7, 3, 7, 9, 4, -1],
   [6, 1, 2, 6, 5, 1, 4, 7, 8, -1],
   [1, 2, 5, 5, 2, 6, 3, 0, 4, 3, 4, 7, -1],
   [8, 4, 7, 9, 0, 5, 0, 6, 5, 0, 2, 6, -1],
   [7, 3, 9, 7, 9, 4, 3, 2, 9, 5, 9, 6, 2, 6, 9, -1],
   [3, 11, 2, 7, 8, 4, 10, 6, 5, -1],
   [5, 10, 6, 4, 7, 2, 4, 2, 0, 2, 7, 11, -1],
   [0, 1, 9, 4, 7, 8, 2, 3, 11, 5, 10, 6, -1],
   [9, 2, 1, 9, 11, 2, 9, 4, 11, 7, 11, 4, 5, 10, 6, -1],
   [8, 4, 7, 3, 11, 5, 3, 5, 1, 5, 11, 6, -1],
   [5, 1, 11, 5, 11, 6, 1, 0, 11, 7, 11, 4, 0, 4, 11, -1],
   [0, 5, 9, 0, 6, 5, 0, 3, 6, 11, 6, 3, 8, 4, 7, -1],
   [6, 5, 9, 6, 9, 11, 4, 7, 9, 7, 11, 9, -1],
   [10, 4, 9, 6, 4, 10, -1],
   [4, 10, 6, 4, 9, 10, 0, 8, 3, -1],
   [10, 0, 1, 10, 6, 0, 6, 4, 0, -1],
   [8, 3, 1, 8, 1, 6, 8, 6, 4, 6, 1, 10, -1],
   [1, 4, 9, 1, 2, 4, 2, 6, 4, -1],
   [3, 0, 8, 1, 2, 9, 2, 4, 9, 2, 6, 4, -1],
   [0, 2, 4, 4, 2, 6, -1],
   [8, 3, 2, 8, 2, 4, 4, 2, 6, -1],
   [10, 4, 9, 10, 6, 4, 11, 2, 3, -1],
   [0, 8, 2, 2, 8, 11, 4, 9, 10, 4, 10, 6, -1],
   [3, 11, 2, 0, 1, 6, 0, 6, 4, 6, 1, 10, -1],
   [6, 4, 1, 6, 1, 10, 4, 8, 1, 2, 1, 11, 8, 11, 1, -1],
   [9, 6, 4, 9, 3, 6, 9, 1, 3, 11, 6, 3, -1],
   [8, 11, 1, 8, 1, 0, 11, 6, 1, 9, 1, 4, 6, 4, 1, -1],
   [3, 11, 6, 3, 6, 0, 0, 6, 4, -1],
   [6, 4, 8, 11, 6, 8, -1],
   [7, 10, 6, 7, 8, 10, 8, 9, 10, -1],
   [0, 7, 3, 0, 10, 7, 0, 9, 10, 6, 7, 10, -1],
   [10, 6, 7, 1, 10, 7, 1, 7, 8, 1, 8, 0, -1],
   [10, 6, 7, 10, 7, 1, 1, 7, 3, -1],
   [1, 2, 6, 1, 6, 8, 1, 8, 9, 8, 6, 7, -1],
   [2, 6, 9, 2, 9, 1, 6, 7, 9, 0, 9, 3, 7, 3, 9, -1],
   [7, 8, 0, 7, 0, 6, 6, 0, 2, -1],
   [7, 3, 2, 6, 7, 2, -1],
   [2, 3, 11, 10, 6, 8, 10, 8, 9, 8, 6, 7, -1],
   [2, 0, 7, 2, 7, 11, 0, 9, 7, 6, 7, 10, 9, 10, 7, -1],
   [1, 8, 0, 1, 7, 8, 1, 10, 7, 6, 7, 10, 2, 3, 11, -1],
   [11, 2, 1, 11, 1, 7, 10, 6, 1, 6, 7, 1, -1],
   [8, 9, 6, 8, 6, 7, 9, 1, 6, 11, 6, 3, 1, 3, 6, -1],
   [0, 9, 1, 11, 6, 7, -1],
   [7, 8, 0, 7, 0, 6, 3, 11, 0, 11, 6, 0, -1],
   [7, 11, 6, -1],
   [7, 6, 11, -1],
   [3, 0, 8, 11, 7, 6, -1],
   [0, 1, 9, 11, 7, 6, -1],
   [8, 1, 9, 8, 3, 1, 11, 7, 6, -1],
   [10, 1, 2, 6, 11, 7, -1],
   [1, 2, 10, 3, 0, 8, 6, 11, 7, -1],
   [2, 9, 0, 2, 10, 9, 6, 11, 7, -1],
   [6, 11, 7, 2, 10, 3, 10, 8, 3, 10, 9, 8, -1],
   [7, 2, 3, 6, 2, 7, -1],
   [7, 0, 8, 7, 6, 0, 6, 2, 0, -1],
   [2, 7, 6, 2, 3, 7, 0, 1, 9, -1],
   [1, 6, 2, 1, 8, 6, 1, 9, 8, 8, 7, 6, -1],
   [10, 7, 6, 10, 1, 7, 1, 3, 7, -1],
   [10, 7, 6, 1, 7, 10, 1, 8, 7, 1, 0, 8, -1],
   [0, 3, 7, 0, 7, 10, 0, 10, 9, 6, 10, 7, -1],
   [7, 6, 10, 7, 10, 8, 8, 10, 9, -1],
   [6, 8, 4, 11, 8, 6, -1],
   [3, 6, 11, 3, 0, 6, 0, 4, 6, -1],
   [8, 6, 11, 8, 4, 6, 9, 0, 1, -1],
   [9, 4, 6, 9, 6, 3, 9, 3, 1, 11, 3, 6, -1],
   [6, 8, 4, 6, 11, 8, 2, 10, 1, -1],
   [1, 2, 10, 3, 0, 11, 0, 6, 11, 0, 4, 6, -1],
   [4, 11, 8, 4, 6, 11, 0, 2, 9, 2, 10, 9, -1],
   [10, 9, 3, 10, 3, 2, 9, 4, 3, 11, 3, 6, 4, 6, 3, -1],
   [8, 2, 3, 8, 4, 2, 4, 6, 2, -1],
   [0, 4, 2, 4, 6, 2, -1],
   [1, 9, 0, 2, 3, 4, 2, 4, 6, 4, 3, 8, -1],
   [1, 9, 4, 1, 4, 2, 2, 4, 6, -1],
   [8, 1, 3, 8, 6, 1, 8, 4, 6, 6, 10, 1, -1],
   [10, 1, 0, 10, 0, 6, 6, 0, 4, -1],
   [4, 6, 3, 4, 3, 8, 6, 10, 3, 0, 3, 9, 10, 9, 3, -1],
   [10, 9, 4, 6, 10, 4, -1],
   [4, 9, 5, 7, 6, 11, -1],
   [0, 8, 3, 4, 9, 5, 11, 7, 6, -1],
   [5, 0, 1, 5, 4, 0, 7, 6, 11, -1],
   [11, 7, 6, 8, 3, 4, 3, 5, 4, 3, 1, 5, -1],
   [9, 5, 4, 10, 1, 2, 7, 6, 11, -1],
   [6, 11, 7, 1, 2, 10, 0, 8, 3, 4, 9, 5, -1],
   [7, 6, 11, 5, 4, 10, 4, 2, 10, 4, 0, 2, -1],
   [3, 4, 8, 3, 5, 4, 3, 2, 5, 10, 5, 2, 11, 7, 6, -1],
   [7, 2, 3, 7, 6, 2, 5, 4, 9, -1],
   [9, 5, 4, 0, 8, 6, 0, 6, 2, 6, 8, 7, -1],
   [3, 6, 2, 3, 7, 6, 1, 5, 0, 5, 4, 0, -1],
   [6, 2, 8, 6, 8, 7, 2, 1, 8, 4, 8, 5, 1, 5, 8, -1],
   [9, 5, 4, 10, 1, 6, 1, 7, 6, 1, 3, 7, -1],
   [1, 6, 10, 1, 7, 6, 1, 0, 7, 8, 7, 0, 9, 5, 4, -1],
   [4, 0, 10, 4, 10, 5, 0, 3, 10, 6, 10, 7, 3, 7, 10, -1],
   [7, 6, 10, 7, 10, 8, 5, 4, 10, 4, 8, 10, -1],
   [6, 9, 5, 6, 11, 9, 11, 8, 9, -1],
   [3, 6, 11, 0, 6, 3, 0, 5, 6, 0, 9, 5, -1],
   [0, 11, 8, 0, 5, 11, 0, 1, 5, 5, 6, 11, -1],
   [6, 11, 3, 6, 3, 5, 5, 3, 1, -1],
   [1, 2, 10, 9, 5, 11, 9, 11, 8, 11, 5, 6, -1],
   [0, 11, 3, 0, 6, 11, 0, 9, 6, 5, 6, 9, 1, 2, 10, -1],
   [11, 8, 5, 11, 5, 6, 8, 0, 5, 10, 5, 2, 0, 2, 5, -1],
   [6, 11, 3, 6, 3, 5, 2, 10, 3, 10, 5, 3, -1],
   [5, 8, 9, 5, 2, 8, 5, 6, 2, 3, 8, 2, -1],
   [9, 5, 6, 9, 6, 0, 0, 6, 2, -1],
   [1, 5, 8, 1, 8, 0, 5, 6, 8, 3, 8, 2, 6, 2, 8, -1],
   [1, 5, 6, 2, 1, 6, -1],
   [1, 3, 6, 1, 6, 10, 3, 8, 6, 5, 6, 9, 8, 9, 6, -1],
   [10, 1, 0, 10, 0, 6, 9, 5, 0, 5, 6, 0, -1],
   [0, 3, 8, 5, 6, 10, -1],
   [10, 5, 6, -1],
   [11, 5, 10, 7, 5, 11, -1],
   [11, 5, 10, 11, 7, 5, 8, 3, 0, -1],
   [5, 11, 7, 5, 10, 11, 1, 9, 0, -1],
   [10, 7, 5, 10, 11, 7, 9, 8, 1, 8, 3, 1, -1],
   [11, 1, 2, 11, 7, 1, 7, 5, 1, -1],
   [0, 8, 3, 1, 2, 7, 1, 7, 5, 7, 2, 11, -1],
   [9, 7, 5, 9, 2, 7, 9, 0, 2, 2, 11, 7, -1],
   [7, 5, 2, 7, 2, 11, 5, 9, 2, 3, 2, 8, 9, 8, 2, -1],
   [2, 5, 10, 2, 3, 5, 3, 7, 5, -1],
   [8, 2, 0, 8, 5, 2, 8, 7, 5, 10, 2, 5, -1],
   [9, 0, 1, 5, 10, 3, 5, 3, 7, 3, 10, 2, -1],
   [9, 8, 2, 9, 2, 1, 8, 7, 2, 10, 2, 5, 7, 5, 2, -1],
   [1, 3, 5, 3, 7, 5, -1],
   [0, 8, 7, 0, 7, 1, 1, 7, 5, -1],
   [9, 0, 3, 9, 3, 5, 5, 3, 7, -1],
   [9, 8, 7, 5, 9, 7, -1],
   [5, 8, 4, 5, 10, 8, 10, 11, 8, -1],
   [5, 0, 4, 5, 11, 0, 5, 10, 11, 11, 3, 0, -1],
   [0, 1, 9, 8, 4, 10, 8, 10, 11, 10, 4, 5, -1],
   [10, 11, 4, 10, 4, 5, 11, 3, 4, 9, 4, 1, 3, 1, 4, -1],
   [2, 5, 1, 2, 8, 5, 2, 11, 8, 4, 5, 8, -1],
   [0, 4, 11, 0, 11, 3, 4, 5, 11, 2, 11, 1, 5, 1, 11, -1],
   [0, 2, 5, 0, 5, 9, 2, 11, 5, 4, 5, 8, 11, 8, 5, -1],
   [9, 4, 5, 2, 11, 3, -1],
   [2, 5, 10, 3, 5, 2, 3, 4, 5, 3, 8, 4, -1],
   [5, 10, 2, 5, 2, 4, 4, 2, 0, -1],
   [3, 10, 2, 3, 5, 10, 3, 8, 5, 4, 5, 8, 0, 1, 9, -1],
   [5, 10, 2, 5, 2, 4, 1, 9, 2, 9, 4, 2, -1],
   [8, 4, 5, 8, 5, 3, 3, 5, 1, -1],
   [0, 4, 5, 1, 0, 5, -1],
   [8, 4, 5, 8, 5, 3, 9, 0, 5, 0, 3, 5, -1],
   [9, 4, 5, -1],
   [4, 11, 7, 4, 9, 11, 9, 10, 11, -1],
   [0, 8, 3, 4, 9, 7, 9, 11, 7, 9, 10, 11, -1],
   [1, 10, 11, 1, 11, 4, 1, 4, 0, 7, 4, 11, -1],
   [3, 1, 4, 3, 4, 8, 1, 10, 4, 7, 4, 11, 10, 11, 4, -1],
   [4, 11, 7, 9, 11, 4, 9, 2, 11, 9, 1, 2, -1],
   [9, 7, 4, 9, 11, 7, 9, 1, 11, 2, 11, 1, 0, 8, 3, -1],
   [11, 7, 4, 11, 4, 2, 2, 4, 0, -1],
   [11, 7, 4, 11, 4, 2, 8, 3, 4, 3, 2, 4, -1],
   [2, 9, 10, 2, 7, 9, 2, 3, 7, 7, 4, 9, -1],
   [9, 10, 7, 9, 7, 4, 10, 2, 7, 8, 7, 0, 2, 0, 7, -1],
   [3, 7, 10, 3, 10, 2, 7, 4, 10, 1, 10, 0, 4, 0, 10, -1],
   [1, 10, 2, 8, 7, 4, -1],
   [4, 9, 1, 4, 1, 7, 7, 1, 3, -1],
   [4, 9, 1, 4, 1, 7, 0, 8, 1, 8, 7, 1, -1],
   [4, 0, 3, 7, 4, 3, -1],
   [4, 8, 7, -1],
   [9, 10, 8, 10, 11, 8, -1],
   [3, 0, 9, 3, 9, 11, 11, 9, 10, -1],
   [0, 1, 10, 0, 10, 8, 8, 10, 11, -1],
   [3, 1, 10, 11, 3, 10, -1],
   [1, 2, 11, 1, 11, 9, 9, 11, 8, -1],
   [3, 0, 9, 3, 9, 11, 1, 2, 9, 2, 11, 9, -1],
   [0, 2, 11, 8, 0, 11, -1],
   [3, 2, 11, -1],
   [2, 3, 8, 2, 8, 10, 10, 8, 9, -1],
   [9, 10, 2, 0, 9, 2, -1],
   [2, 3, 8, 2, 8, 10, 0, 1, 8, 1, 10, 8, -1],
   [1, 10, 2, -1],
   [1, 3, 8, 9, 1, 8, -1],
   [0, 9, 1, -1],
   [0, 3, 8, -1],
   [-1]]

/-- The 8-bit cube-configuration code built by the inner corner loop of
`marchCubes`: iterate `CORNER_ARRAY.entries()`, and for each corner whose
sampled value is strictly greater than the isovalue, OR the bit `1 << i` into
the byte. -/
def cubeConfig (g : Grid3) (iso : ℚ) (x y z : ℕ) : ℕ :=
  CORNER_ARRAY.enum.foldl
    (fun acc p =>
      if gridAt g (x + p.2.1) (y + p.2.2.1) (z + p.2.2.2) > iso then
        acc ||| (1 <<< p.1)
      else acc)
    0

/-- `createScaledVector(point, resolution)` from `marchCubes`: divide each
component of the point by the resolution. -/
def createScaledVector (p : Vec3) (resolution : ℚ) : Vec3 :=
  ⟨p.x / resolution, p.y / resolution, p.z / resolution⟩

/-- `getEdgeMidpoint(edge, resolution)` from `marchCubes`: scale both endpoint
corners by `1/resolution`, add them, and multiply by 0.5. -/
def getEdgeMidpoint (edge : Vec3 × Vec3) (resolution : ℚ) : Vec3 :=
  ((createScaledVector edge.1 resolution).add
    (createScaledVector edge.2 resolution)).mulScalar (1 / 2)

/-- `EDGE_ARRAY[edgeIndex]` lookup (edge indices in the table are 0..11; the
default is never reached for the well-formed table). -/
def edgeAt (ei : ℤ) : Vec3 × Vec3 :=
  EDGE_ARRAY.getD ei.toNat (⟨0, 0, 0⟩, ⟨0, 0, 0⟩)

/-- The vertex pushed for one edge index at cell `(x, y, z)`:
`new Vector3(x/res, y/res, z/res).add(getEdgeMidpoint(EDGE_ARRAY[ei], res))`. -/
def emitVertex (x y z : ℕ) (resolution : ℚ) (ei : ℤ) : Vec3 :=
  (Vec3.mk ((x : ℚ) / resolution) ((y : ℚ) / resolution) ((z : ℚ) / resolution)).add
    (getEdgeMidpoint (edgeAt ei) resolution)

/-- The `while (i < triangles.length)` loop of `marchCubes`: stop at the -1
sentinel, otherwise read three edge indices, push the three corresponding
vertices, and advance by 3.  (Table rows are edge-index triples followed by a
-1 terminator — `TRIANGLE_TABLE_wellFormed` — so a leftover of one or two
non-sentinel entries never occurs.) -/
def processTriangles (x y z : ℕ) (resolution : ℚ) : List ℤ → List Vec3
  | e1 :: e2 :: e3 :: rest =>
    if e1 = -1 then []
    else
      emitVertex x y z resolution e1 :: emitVertex x y z resolution e2 ::
        emitVertex x y z resolution e3 :: processTriangles x y z resolution rest
  | _ => []

/-- The vertices one cell contributes: classify the cube, look the
configuration byte up in the triangle table, and walk the row. -/
def cellVertexes (g : Grid3) (iso : ℚ) (resolution : ℚ) (x y z : ℕ) : List Vec3 :=
  processTriangles x y z resolution (TRIANGLE_TABLE.getD (cubeConfig g iso x y z) [])

/-- Number of iterations of a `for (let i = 0; i < bound; i++)` loop whose
(real-valued) bound is `q`: the number of naturals strictly below `q`. -/
def jsLoopCount (q : ℚ) : ℕ := (Int.ceil q).toNat

/-- The full triple scan of `marchCubes`: every axis runs its counter from 0
while it is `< size.axis * resolution - 1`. -/
def computeVertexes (g : Grid3) (iso resolution qx qy qz : ℚ) : List Vec3 :=
  (List.range (jsLoopCount (qx - 1))).flatMap fun x =>
    (List.range (jsLoopCount (qy - 1))).flatMap fun y =>
      (List.range (jsLoopCount (qz - 1))).flatMap fun z =>
        cellVertexes g iso resolution x y z

/-- The mutable state of a `VoxelGrid` instance. -/
structure VoxelGrid where
  resolution : ℚ
  size : Vec3
  isovalue : ℚ
  position : Vec3
  grid : Grid3
  meshVertexes : List Vec3
  mesh : Option (List Vec3)
deriving DecidableEq

/-- `marchCubes()`: reset `this.meshVertexes` to empty, then push the vertices
of every scanned cell; no other field is assigned. -/
def marchCubes (v : VoxelGrid) : VoxelGrid :=
  { v with
    meshVertexes :=
      computeVertexes v.grid v.isovalue v.resolution
        (v.size.x * v.resolution) (v.size.y * v.resolution)
        (v.size.z * v.resolution) }

/-- A generated mesh is identified with the vertex list its geometry was built
from; the scene is the list of meshes currently added to it. -/
abbrev Scene := List (List Vec3)

/-- `generateMesh()`: throws when the vertex count is not a multiple of 3,
otherwise builds the mesh from the accumulated vertices. -/
def generateMesh (vs : List Vec3) : Except String (List Vec3) :=
  if vs.length % 3 ≠ 0 then
    .error "meshVertexes array length must be a multiple of 3."
  else .ok vs

/-- Observable steps of a `render(scene)` call, in execution order. -/
inductive RenderEvent where
  | removePrevMesh
  | runExtraction
  | addMesh
  | logError
deriving DecidableEq

/-- The scene as it stands when `marchCubes` starts: `render` has already
called `removeMeshAndDispose(scene, this.mesh)` when a previous mesh exists. -/
def sceneBeforeExtraction (v : VoxelGrid) (scene : Scene) : Scene :=
  match v.mesh with
  | some m => scene.erase m
  | none => scene

/-- `render(scene)`: remove the previous mesh (if any), run `marchCubes`, then
try to generate and add the new mesh, logging (and swallowing) any error.
Returns the new instance state, the new scene, and the trace of steps. -/
def render (v : VoxelGrid) (scene : Scene) :
    VoxelGrid × Scene × List RenderEvent :=
  let s1 := sceneBeforeExtraction v scene
  let ev1 : List RenderEvent :=
    match v.mesh with
    | some _ => [.removePrevMesh]
    | none => []
  let v1 := marchCubes v
  match generateMesh v1.meshVertexes with
  | .ok m => ({ v1 with mesh := some m }, s1 ++ [m], ev1 ++ [.runExtraction, .addMesh])
  | .error _ => (v1, s1, ev1 ++ [.runExtraction, .logError])

/-- The step trace of a `render` call. -/
def renderEvents (v : VoxelGrid) (scene : Scene) : List RenderEvent :=
  (render v scene).2.2

/-- Errors a JavaScript execution of `initializeGrid` can raise, next to the
error kind the spec postulates.  `invalidParameter` is modelled from the spec
(§7 names an `InvalidParameter` kind for bad construction arguments); the code
in `VoxelGrid.ts` contains no such check and never produces it. -/
inductive JSErr where
  | rangeError           -- `Array(n)` with a fractional or negative length
  | typeErrorUndefined   -- indexing into `undefined` (a missing row)
  | invalidParameter     -- spec-only error kind, unreachable in the code
deriving DecidableEq

/-- JavaScript `ToLength` as used by `Array.from({length: q})`: truncate toward
zero and clamp below at 0. -/
def jsToLength (q : ℚ) : ℕ := (max 0 (Int.floor q)).toNat

/-- `Array(q)` length check: accepts exactly non-negative integers. -/
def arrayLen? (q : ℚ) : Option ℕ :=
  if q.den = 1 ∧ 0 ≤ q.num then some q.num.toNat else none

/-- The allocation in `initializeGrid`:
`Array.from({length: qx}, () => Array.from({length: qy}, () => Array(qz).fill(-1)))`.
The inner `Array(qz)` (which throws a `RangeError` on a fractional or negative
length) only runs when both outer lengths are non-zero. -/
def allocGrid (qx qy qz : ℚ) : Except JSErr Grid3 :=
  let nx := jsToLength qx
  let ny := jsToLength qy
  if nx = 0 then .ok []
  else if ny = 0 then .ok (List.replicate nx [])
  else
    match arrayLen? qz with
    | none => .error .rangeError
    | some nz => .ok (List.replicate nx (List.replicate ny (List.replicate nz (-1 : ℚ))))

/-- The effect of the assignment `zlist[q] = v` on a JavaScript array `zlist`:
an integer index below the length overwrites that cell; an integer index equal
to the length appends (the array grows); a fractional or negative index stores
an object property without touching any array cell.  (An integer index beyond
the length would create a sparse array; the seed z-index `extentZ / 2` is never
beyond the length, so that case keeps the list unchanged here.) -/
def assignZ (l : List ℚ) (q : ℚ) (v : ℚ) : List ℚ :=
  if q.den = 1 ∧ 0 ≤ q.num then
    if q.num.toNat < l.length then l.set q.num.toNat v
    else if q.num.toNat = l.length then l ++ [v]
    else l
  else l

/-- Row lookup `g[q]` for a (possibly fractional) index: a cell exists exactly
when `q` is an integer in `[0, length)`; otherwise the access yields
`undefined`. -/
def qIdx? (len : ℕ) (q : ℚ) : Option ℕ :=
  if q.den = 1 ∧ 0 ≤ q.num ∧ q.num < (len : ℤ) then some q.num.toNat else none

/-- One seeding statement `this.grid[qx][qy][qz] = 1`: resolving a missing x- or
y-row throws a TypeError (reading a property of `undefined`); the final z-level
assignment follows JavaScript array-assignment semantics (`assignZ`). -/
def seedAt (g : Grid3) (qx qy qz : ℚ) : Except JSErr Grid3 :=
  match qIdx? g.length qx with
  | none => .error .typeErrorUndefined
  | some i =>
    match qIdx? (g.getD i []).length qy with
    | none => .error .typeErrorUndefined
    | some j =>
      .ok (g.set i ((g.getD i []).set j (assignZ ((g.getD i []).getD j []) qz 1)))

/-- `initializeGrid()`: allocate the grid sized
`size.axis * resolution` per axis, all cells `-1`, then assign `1` to the eight
hard-coded seed cells around `((size/2) * resolution)`. -/
def initializeGrid (resolution : ℚ) (size : Vec3) : Except JSErr Grid3 := do
  let g0 ← allocGrid (size.x * resolution) (size.y * resolution) (size.z * resolution)
  let cx := size.x / 2 * resolution
  let cy := size.y / 2 * resolution
  let cz := size.z / 2 * resolution
  let g1 ← seedAt g0 cx cy cz
  let g2 ← seedAt g1 (cx + 1) cy cz
  let g3 ← seedAt g2 (cx + 2) cy cz
  let g4 ← seedAt g3 (cx + 2) (cy - 1) cz
  let g5 ← seedAt g4 (cx + 2) (cy - 2) cz
  let g6 ← seedAt g5 (cx + 2) (cy - 3) cz
  let g7 ← seedAt g6 (cx + 3) cy cz
  seedAt g7 (cx + 4) cy cz

/-- The constructor: store the four parameters and call `initializeGrid`. -/
def VoxelGrid.create (resolution : ℚ) (size : Vec3) (isovalue : ℚ)
    (position : Vec3) : Except JSErr VoxelGrid :=
  (initializeGrid resolution size).map fun g =>
    { resolution := resolution, size := size, isovalue := isovalue,
      position := position, grid := g, meshVertexes := [], mesh := none }

/-! ### Structural facts about the extraction pipeline -/

/-- Every triangle-table row is a sequence of edge-index triples (values 0..11)
followed by the single sentinel `-1`: the structure the spec ascribes to the
table, and the shape the `while` loop of `marchCubes` relies on. -/
theorem TRIANGLE_TABLE_wellFormed :
    TRIANGLE_TABLE.length = 256 ∧
      TRIANGLE_TABLE.all
        (fun r => r.length % 3 == 1 && r.getLast? == some (-1) &&
          r.dropLast.all (fun e => 0 ≤ e && e ≤ 11)) = true := by
  constructor
  · set_option maxRecDepth 8000 in with_unfolding_all rfl
  · set_option maxRecDepth 8000 in with_unfolding_all rfl

/-- The `while` loop emits vertices three at a time, so its output length is a
multiple of 3, whatever the table row contains. -/
theorem processTriangles_length_mod3 (x y z : ℕ) (res : ℚ) :
    ∀ l : List ℤ, (processTriangles x y z res l).length % 3 = 0
  | [] => by simp [processTriangles]
  | [_] => by simp [processTriangles]
  | [_, _] => by simp [processTriangles]
  | e1 :: _ :: _ :: rest => by
    have ih := processTriangles_length_mod3 x y z res rest
    by_cases h : e1 = -1
    · simp [processTriangles, h]
    · simp [processTriangles, h]
      omega

theorem dvd_length_flatMap {α : Type} (l : List α) (f : α → List Vec3)
    (h : ∀ a ∈ l, 3 ∣ (f a).length) : 3 ∣ (l.flatMap f).length := by
  induction l with
  | nil => simp
  | cons a t ih =>
    rw [List.flatMap_cons, List.length_append]
    exact Nat.dvd_add (h a (List.mem_cons_self a t))
      (ih fun b hb => h b (List.mem_cons_of_mem a hb))

theorem computeVertexes_length_mod3 (g : Grid3) (iso res qx qy qz : ℚ) :
    (computeVertexes g iso res qx qy qz).length % 3 = 0 := by
  have h : 3 ∣ (computeVertexes g iso res qx qy qz).length := by
    refine dvd_length_flatMap _ _ fun x _ => ?_
    refine dvd_length_flatMap _ _ fun y _ => ?_
    refine dvd_length_flatMap _ _ fun z _ => ?_
    have h := processTriangles_length_mod3 x y z res
      (TRIANGLE_TABLE.getD (cubeConfig g iso x y z) [])
    simp only [cellVertexes]
    omega
  omega

/-- **C4.** For every field (any scalar grid, any isovalue, any extents), the
vertex list produced by `marchCubes` has length divisible by 3: the vertices
form whole triangles, with no partial triple ever emitted. -/
theorem extraction_vertex_count_multiple_of_three (v : VoxelGrid) :
    (marchCubes v).meshVertexes.length % 3 = 0 :=
  computeVertexes_length_mod3 _ _ _ _ _ _

/-- Modelled from the spec (refinement reference for the interpolation rule):
"Compute the edge's surface-crossing point as the midpoint between its two
endpoint corners, scaled into world coordinates by dividing by `resolution` and
offsetting by the cell's base position `(x, y, z) / resolution`", with the
"fixed midpoint (0.5 interpolation factor)" simplification. -/
def specCrossingPoint (e : Vec3 × Vec3) (resolution : ℚ) (x y z : ℕ) : Vec3 :=
  (createScaledVector ((e.1.add e.2).mulScalar (1 / 2)) resolution).add
    ⟨(x : ℚ) / resolution, (y : ℚ) / resolution, (z : ℚ) / resolution⟩

/-- **C6.** For every edge index referenced during extraction of cell
`(x, y, z)`, the emitted vertex equals the fixed midpoint (0.5 factor,
independent of the corner scalar values) of the edge's two endpoint corners
divided by the resolution, plus the cell base position divided by the
resolution — exactly the spec's formula. -/
theorem emitted_vertex_is_scaled_edge_midpoint (ei : ℤ) (x y z : ℕ) (res : ℚ) :
    emitVertex x y z res ei = specCrossingPoint (edgeAt ei) res x y z := by
  ext <;>
    simp [emitVertex, specCrossingPoint, getEdgeMidpoint, createScaledVector,
      Vec3.add, Vec3.mulScalar] <;>
    ring

/-- **C7.** Extraction is a deterministic, idempotent function of the field
state: running `marchCubes` twice without touching the field gives the same
state (hence the identical vertex sequence) as running it once, and the
resulting vertex list does not depend on whatever vertex buffer had accumulated
before the call. -/
theorem extraction_idempotent_and_buffer_independent (v : VoxelGrid)
    (b : List Vec3) :
    marchCubes (marchCubes v) = marchCubes v ∧
      (marchCubes { v with meshVertexes := b }).meshVertexes =
        (marchCubes v).meshVertexes := ⟨rfl, rfl⟩

/-- **C9.** Extraction never writes to the scalar field or any other
configuration state: `marchCubes` leaves `grid`, `resolution`, `size`,
`isovalue`, `position` and `mesh` untouched, and replaces `meshVertexes`
wholesale with a value computed only from the field state. -/
theorem extraction_preserves_field (v : VoxelGrid) :
    (marchCubes v).grid = v.grid ∧
      (marchCubes v).resolution = v.resolution ∧
      (marchCubes v).size = v.size ∧
      (marchCubes v).isovalue = v.isovalue ∧
      (marchCubes v).position = v.position ∧
      (marchCubes v).mesh = v.mesh ∧
      (marchCubes v).meshVertexes =
        computeVertexes v.grid v.isovalue v.resolution
          (v.size.x * v.resolution) (v.size.y * v.resolution)
          (v.size.z * v.resolution) :=
  ⟨rfl, rfl, rfl, rfl, rfl, rfl, rfl⟩

/-- Bit `i` of the corner-classification fold is set iff some entry of the
list carries index `i` and satisfies the classification predicate. -/
theorem testBit_bitFold (l : List (ℕ × (ℕ × ℕ × ℕ))) (Q : ℕ × (ℕ × ℕ × ℕ) → Prop)
    [DecidablePred Q] (a i : ℕ) :
    (l.foldl (fun acc p => if Q p then acc ||| (1 <<< p.1) else acc) a).testBit i
      = (a.testBit i || l.any fun p => decide (p.1 = i) && decide (Q p)) := by
  induction l generalizing a with
  | nil => simp
  | cons hd t ih =>
    simp only [List.foldl_cons, List.any_cons, ih]
    by_cases h : Q hd
    · simp only [h, if_pos, Nat.testBit_or, Nat.shiftLeft_eq, Nat.one_mul,
        one_mul, Nat.testBit_two_pow, decide_True, Bool.and_true]
      cases Nat.decEq hd.1 i with
      | isTrue he => simp [he, Bool.or_comm, Bool.or_assoc]
      | isFalse he => simp [he]
    · simp [h]

/-- **C5.** For every cell the scan visits, bit `i` of the 8-bit configuration
code is 1 iff the scalar value sampled at corner `i`'s offset (taken from the
corner-offset table) is strictly greater than the isovalue; a corner value
equal to the isovalue leaves the bit 0. -/
theorem config_bit_iff_corner_above (g : Grid3) (iso : ℚ) (x y z i : ℕ)
    (hi : i < 8) :
    ((cubeConfig g iso x y z).testBit i = true ↔
      gridAt g (x + (cornerAt i).1) (y + (cornerAt i).2.1)
        (z + (cornerAt i).2.2) > iso) ∧
    (gridAt g (x + (cornerAt i).1) (y + (cornerAt i).2.1)
        (z + (cornerAt i).2.2) = iso →
      (cubeConfig g iso x y z).testBit i = false) := by
  have hmain : (cubeConfig g iso x y z).testBit i = true ↔
      gridAt g (x + (cornerAt i).1) (y + (cornerAt i).2.1)
        (z + (cornerAt i).2.2) > iso := by
    unfold cubeConfig
    rw [testBit_bitFold]
    interval_cases i <;>
      simp [CORNER_ARRAY, cornerAt, List.enum, List.enumFrom]
  refine ⟨hmain, fun heq => ?_⟩
  rw [Bool.eq_false_iff]
  intro htrue
  exact absurd (hmain.mp htrue) (by rw [heq]; exact lt_irrefl iso)

/-- Witness for C5 at a concrete field: a 1×1×1 grid holding `1`, isovalue 0,
cell (0,0,0), corner 0. -/
theorem config_bit_iff_corner_above_witness :
    ((cubeConfig [[[(1 : ℚ)]]] 0 0 0 0).testBit 0 = true ↔
      gridAt [[[(1 : ℚ)]]] (0 + (cornerAt 0).1) (0 + (cornerAt 0).2.1)
        (0 + (cornerAt 0).2.2) > 0) ∧
    (gridAt [[[(1 : ℚ)]]] (0 + (cornerAt 0).1) (0 + (cornerAt 0).2.1)
        (0 + (cornerAt 0).2.2) = 0 →
      (cubeConfig [[[(1 : ℚ)]]] 0 0 0 0).testBit 0 = false) :=
  config_bit_iff_corner_above [[[(1 : ℚ)]]] 0 0 0 0 0 (by norm_num)

theorem jsLoopCount_natCast_sub_one (n : ℕ) :
    jsLoopCount ((n : ℚ) - 1) = n - 1 := by
  unfold jsLoopCount
  rw [show ((n : ℚ) - 1) = (((n : ℤ) - 1 : ℤ) : ℚ) by push_cast; ring,
    Int.ceil_intCast]
  omega

/-- **C3.** Under the shape invariant (each extent a natural number equal to
`dimensions.axis * resolution`), the scan of `marchCubes` visits exactly the
cells with `0 ≤ x < extentX - 1` (similarly y, z), and sampling the 8 cube
corners of a visited cell never reads a grid index outside `[0, extent)` on
any axis. -/
theorem scan_visits_only_interior_and_reads_in_bounds (qx qy qz : ℚ)
    (nx ny nz : ℕ) (hx : qx = (nx : ℚ)) (hy : qy = (ny : ℚ))
    (hz : qz = (nz : ℚ)) :
    jsLoopCount (qx - 1) = nx - 1 ∧ jsLoopCount (qy - 1) = ny - 1 ∧
      jsLoopCount (qz - 1) = nz - 1 ∧
      ∀ x y z : ℕ, x < jsLoopCount (qx - 1) → y < jsLoopCount (qy - 1) →
        z < jsLoopCount (qz - 1) →
        ∀ c ∈ CORNER_ARRAY, x + c.1 < nx ∧ y + c.2.1 < ny ∧ z + c.2.2 < nz := by
  subst hx hy hz
  rw [jsLoopCount_natCast_sub_one, jsLoopCount_natCast_sub_one,
    jsLoopCount_natCast_sub_one]
  refine ⟨rfl, rfl, rfl, fun x y z hxlt hylt hzlt c hc => ?_⟩
  fin_cases hc <;> simp <;> omega

/-- Witness for C3 at concrete extents 2×2×2 (a single scanned cell). -/
theorem scan_visits_only_interior_and_reads_in_bounds_witness :
    jsLoopCount ((2 : ℚ) - 1) = 2 - 1 ∧ jsLoopCount ((2 : ℚ) - 1) = 2 - 1 ∧
      jsLoopCount ((2 : ℚ) - 1) = 2 - 1 ∧
      ∀ x y z : ℕ, x < jsLoopCount ((2 : ℚ) - 1) → y < jsLoopCount ((2 : ℚ) - 1) →
        z < jsLoopCount ((2 : ℚ) - 1) →
        ∀ c ∈ CORNER_ARRAY, x + c.1 < 2 ∧ y + c.2.1 < 2 ∧ z + c.2.2 < 2 :=
  scan_visits_only_interior_and_reads_in_bounds 2 2 2 2 2 2
    (by norm_num) (by norm_num) (by norm_num)

/-! ### The `render` call and its effect on the caller's scene -/

/-- A previously generated mesh (any nonempty triangle). -/
def prevMesh : List Vec3 := [⟨0, 0, 0⟩, ⟨1, 0, 0⟩, ⟨0, 1, 0⟩]

/-- A `VoxelGrid` carrying a previously generated mesh, over a 2×2×2
all-outside field. -/
def renderDemoState : VoxelGrid :=
  { resolution := 1, size := ⟨2, 2, 2⟩, isovalue := 0, position := ⟨0, 0, 0⟩,
    grid := List.replicate 2 (List.replicate 2 (List.replicate 2 (-1 : ℚ))),
    meshVertexes := [], mesh := some prevMesh }

/-- A scene containing exactly that previous mesh. -/
def renderDemoScene : Scene := [prevMesh]

/-- **C1 is false on the code.** `render` removes the caller's previous mesh
*before* extraction runs, not after it completes: on a concrete state whose
previous mesh is in the scene, the scene in effect when `marchCubes` starts no
longer contains that mesh, and the step trace puts the removal strictly before
the extraction step. -/
theorem render_removes_mesh_before_extraction_counterexample :
    renderDemoState.mesh = some prevMesh ∧ prevMesh ∈ renderDemoScene ∧
      prevMesh ∉ sceneBeforeExtraction renderDemoState renderDemoScene ∧
      renderEvents renderDemoState renderDemoScene =
        [.removePrevMesh, .runExtraction, .addMesh] := by
  refine ⟨rfl, by simp [renderDemoScene], ?_, ?_⟩
  · with_unfolding_all decide
  · with_unfolding_all rfl

/-- **C1 (amended).** `render` removes the caller's previous mesh first and
runs extraction afterwards; extraction itself always yields a vertex list of
length a multiple of 3, so the subsequent mesh generation never fails: a new
mesh built from exactly the extracted vertices is always added to the scene
(and recorded in the instance).  Only a failing mesh generation would be caught
and add nothing — with the previous mesh already removed. -/
theorem render_removes_then_extracts_then_adds (v : VoxelGrid) (s : Scene) :
    renderEvents v s =
      (match v.mesh with
        | some _ => [RenderEvent.removePrevMesh]
        | none => []) ++ [RenderEvent.runExtraction, RenderEvent.addMesh] ∧
    (render v s).2.1 =
      sceneBeforeExtraction v s ++ [(marchCubes v).meshVertexes] ∧
    (render v s).1.mesh = some (marchCubes v).meshVertexes := by
  have h3 : (marchCubes v).meshVertexes.length % 3 = 0 :=
    computeVertexes_length_mod3 _ _ _ _ _ _
  simp only [renderEvents, render, generateMesh, h3]
  norm_num

/-! ### Initialization: allocation and hard-coded seeding -/


theorem qIdx?_eq_some_iff {len : ℕ} {q : ℚ} {i : ℕ} :
    qIdx? len q = some i ↔ q = (i : ℚ) ∧ i < len := by
  unfold qIdx?
  split
  next h =>
    obtain ⟨hden, hnum0, hlt⟩ := h
    have hzq : ((q.num.toNat : ℤ) : ℚ) = q := by
      rw [Int.toNat_of_nonneg hnum0]
      exact (Rat.den_eq_one_iff q).mp hden
    have hq : ((q.num.toNat : ℕ) : ℚ) = q := by exact_mod_cast hzq
    constructor
    · rintro h'
      obtain rfl := Option.some.inj h'
      exact ⟨hq.symm, by omega⟩
    · rintro ⟨rfl, hi⟩
      simp only [Option.some.injEq]
      exact_mod_cast hq
  next h =>
    simp only [false_iff, reduceCtorEq]
    rintro ⟨rfl, hi⟩
    exact h ⟨Rat.den_natCast i, by simp, by simpa using hi⟩

theorem getD_set_eq {α : Type _} (l : List α) (i : ℕ) (a d : α) (h : i < l.length) :
    (l.set i a).getD i d = a := by
  simp [List.getD_eq_getElem?_getD, List.getElem?_set_self h]

theorem getD_set_ne {α : Type _} (l : List α) {i j : ℕ} (a d : α) (h : i ≠ j) :
    (l.set i a).getD j d = l.getD j d := by
  simp [List.getD_eq_getElem?_getD, List.getElem?_set_ne h]

theorem getD_append_left {α : Type _} (l1 l2 : List α) (d : α) {n : ℕ}
    (h : n < l1.length) : (l1 ++ l2).getD n d = l1.getD n d := by
  simp [List.getD_eq_getElem?_getD, List.getElem?_append_left h]

theorem getD_append_singleton_self {α : Type _} (l : List α) (v d : α) :
    (l ++ [v]).getD l.length d = v := by
  simp [List.getD_eq_getElem?_getD,
    List.getElem?_append_right (Nat.le_refl l.length)]

theorem getD_eq_default_of_le {α : Type _} (l : List α) (d : α) {n : ℕ}
    (h : l.length ≤ n) : l.getD n d = d := by
  simp [List.getD_eq_getElem?_getD, List.getElem?_eq_none h]

theorem seedAt_eq_ok {g g' : Grid3} {qx qy qz : ℚ}
    (h : seedAt g qx qy qz = .ok g') :
    ∃ i j : ℕ, qx = (i : ℚ) ∧ i < g.length ∧ qy = (j : ℚ) ∧
      j < (g.getD i []).length ∧
      g' = g.set i ((g.getD i []).set j
        (assignZ ((g.getD i []).getD j []) qz 1)) := by
  unfold seedAt at h
  split at h
  · cases h
  · next i hx =>
    split at h
    · cases h
    · next j hy =>
      obtain ⟨hq1, hq2⟩ := qIdx?_eq_some_iff.mp hx
      obtain ⟨hq3, hq4⟩ := qIdx?_eq_some_iff.mp hy
      exact ⟨i, j, hq1, hq2, hq3, hq4, (Except.ok.inj h).symm⟩

theorem length_seedAt {g g' : Grid3} {qx qy qz : ℚ}
    (h : seedAt g qx qy qz = .ok g') :
    g'.length = g.length ∧
      ∀ x, (g'.getD x []).length = (g.getD x []).length := by
  obtain ⟨i, j, _, hi, _, hj, rfl⟩ := seedAt_eq_ok h
  refine ⟨List.length_set .., fun x => ?_⟩
  by_cases hxi : x = i
  · subst hxi
    rw [getD_set_eq _ _ _ _ hi, List.length_set]
  · rw [getD_set_ne _ _ _ (Ne.symm hxi)]

theorem zlistAt_seedAt {g g' : Grid3} {qx qy qz : ℚ}
    (h : seedAt g qx qy qz = .ok g') (x y : ℕ) :
    zlistAt g' x y =
      if qx = (x : ℚ) ∧ qy = (y : ℚ) then assignZ (zlistAt g x y) qz 1
      else zlistAt g x y := by
  obtain ⟨i, j, hqx, hi, hqy, hj, rfl⟩ := seedAt_eq_ok h
  unfold zlistAt
  by_cases hxi : x = i
  · subst hxi
    rw [getD_set_eq _ _ _ _ hi]
    by_cases hyj : y = j
    · subst hyj
      rw [if_pos ⟨hqx, hqy⟩, getD_set_eq _ _ _ _ hj]
    · rw [if_neg (by
        rintro ⟨h1, h2⟩
        exact hyj ((by exact_mod_cast hqy.symm.trans h2 : j = y)).symm),
        getD_set_ne _ _ _ (Ne.symm hyj)]
  · rw [if_neg (by
      rintro ⟨h1, h2⟩
      exact hxi ((by exact_mod_cast hqx.symm.trans h1 : i = x)).symm),
      getD_set_ne _ _ _ (Ne.symm hxi)]


theorem getD_assignZ (l : List ℚ) (q v : ℚ) (z : ℕ) :
    (assignZ l q v).getD z 0 =
      if q = (z : ℚ) ∧ z ≤ l.length then v else l.getD z 0 := by
  unfold assignZ
  by_cases hden : q.den = 1 ∧ 0 ≤ q.num
  · obtain ⟨h1, h2⟩ := hden
    have hq : ((q.num.toNat : ℕ) : ℚ) = q := by
      have hzq : ((q.num.toNat : ℤ) : ℚ) = q := by
        rw [Int.toNat_of_nonneg h2]
        exact (Rat.den_eq_one_iff q).mp h1
      exact_mod_cast hzq
    have hqz : q = (z : ℚ) ↔ q.num.toNat = z := by
      constructor
      · intro h; exact_mod_cast hq.trans h
      · rintro h; rw [← h]; exact hq.symm
    rw [if_pos ⟨h1, h2⟩]
    by_cases hklt : q.num.toNat < l.length
    · rw [if_pos hklt]
      by_cases hkz : q.num.toNat = z
      · rw [if_pos ⟨hqz.mpr hkz, by omega⟩, ← hkz, getD_set_eq _ _ _ _ hklt]
      · rw [if_neg (by rintro ⟨hc, _⟩; exact hkz (hqz.mp hc)),
          getD_set_ne _ _ _ hkz]
    · rw [if_neg hklt]
      by_cases hkeq : q.num.toNat = l.length
      · rw [if_pos hkeq]
        by_cases hkz : q.num.toNat = z
        · rw [if_pos ⟨hqz.mpr hkz, by omega⟩, ← hkz, hkeq,
            getD_append_singleton_self]
        · rw [if_neg (by rintro ⟨hc, _⟩; exact hkz (hqz.mp hc))]
          by_cases hzlt : z < l.length
          · rw [getD_append_left _ _ _ hzlt]
          · rw [getD_eq_default_of_le _ _ (by omega : l.length ≤ z),
              getD_eq_default_of_le _ _ (by simp; omega)]
      · rw [if_neg hkeq,
          if_neg (by rintro ⟨hc, hzle⟩; have := hqz.mp hc; omega)]
  · rw [if_neg hden, if_neg ?_]
    rintro ⟨rfl, _⟩
    exact hden ⟨Rat.den_natCast z, by simp⟩


/-- The (x, y) positions of the eight hard-coded seed statements, relative to
integral anchor indices `a = (size.x/2)*resolution`, `b = (size.y/2)*resolution`. -/
def seedXY (a b : ℕ) : List (ℕ × ℕ) :=
  [(a, b), (a + 1, b), (a + 2, b), (a + 2, b - 1), (a + 2, b - 2),
   (a + 2, b - 3), (a + 3, b), (a + 4, b)]

theorem getD_replicate {α : Type _} (n : ℕ) (a d : α) (i : ℕ) :
    (List.replicate n a).getD i d = if i < n then a else d := by
  by_cases h : i < n
  · simp [List.getD_eq_getElem?_getD, List.getElem?_replicate, h]
  · simp [List.getD_eq_getElem?_getD, List.getElem?_replicate, h]

theorem cast_shift_eq {x : ℚ} {a i : ℕ} (k : ℕ) (hp : x = (a : ℚ))
    (h : x + (k : ℚ) = (i : ℚ)) : i = a + k := by
  subst hp; exact_mod_cast h.symm

theorem cast_drop_eq {x : ℚ} {b j : ℕ} (k : ℕ) (hp : x = (b : ℚ))
    (h : x - (k : ℚ) = (j : ℚ)) : b = j + k := by
  subst hp
  have : (b : ℚ) = (j : ℚ) + (k : ℚ) := by linarith
  exact_mod_cast this

set_option maxHeartbeats 3200000 in
/-- Master elimination for a successful `initializeGrid` run: the anchor
indices are integral and in range (with the slack the four x offsets and three
y offsets need), the outer extents match the allocation, and every z column of
the result is the freshly allocated `-1` column, with the single seed
assignment applied exactly on the eight seed positions. -/
theorem initializeGrid_ok_elim {res : ℚ} {size : Vec3} {g : Grid3}
    (h : initializeGrid res size = .ok g) :
    ∃ a b nx ny nz : ℕ,
      size.x / 2 * res = (a : ℚ) ∧ size.y / 2 * res = (b : ℚ) ∧
      jsToLength (size.x * res) = nx ∧ jsToLength (size.y * res) = ny ∧
      arrayLen? (size.z * res) = some nz ∧
      a + 4 < nx ∧ 3 ≤ b ∧ b < ny ∧
      g.length = nx ∧ (∀ x, x < nx → (g.getD x []).length = ny) ∧
      ∀ x y : ℕ,
        zlistAt g x y =
          if (x, y) ∈ seedXY a b then
            assignZ (List.replicate nz (-1 : ℚ)) (size.z / 2 * res) 1
          else if x < nx ∧ y < ny then List.replicate nz (-1 : ℚ) else [] := by
  unfold initializeGrid at h
  simp only [bind, Except.bind] at h
  split at h
  · cases h
  next g0 halloc =>
  split at h
  · cases h
  next g1 h1 =>
  split at h
  · cases h
  next g2 h2 =>
  split at h
  · cases h
  next g3 h3 =>
  split at h
  · cases h
  next g4 h4 =>
  split at h
  · cases h
  next g5 h5 =>
  split at h
  · cases h
  next g6 h6 =>
  split at h
  · cases h
  next g7 h7 =>
  -- allocation analysis
  unfold allocGrid at halloc
  by_cases hnx0 : jsToLength (size.x * res) = 0
  · rw [if_pos hnx0] at halloc
    obtain rfl := Except.ok.inj halloc
    obtain ⟨i, j, _, hi, _, _, _⟩ := seedAt_eq_ok h1
    simp at hi
  · rw [if_neg hnx0] at halloc
    by_cases hny0 : jsToLength (size.y * res) = 0
    · rw [if_pos hny0] at halloc
      obtain rfl := Except.ok.inj halloc
      obtain ⟨i, j, _, hi, _, hj, _⟩ := seedAt_eq_ok h1
      simp [getD_replicate] at hj
    · rw [if_neg hny0] at halloc
      cases hzz : arrayLen? (size.z * res) with
      | none => rw [hzz] at halloc; cases halloc
      | some nz =>
      rw [hzz] at halloc
      obtain rfl := Except.ok.inj halloc
      set nx := jsToLength (size.x * res) with hnxdef
      set ny := jsToLength (size.y * res) with hnydef
      -- step 1: the anchor indices
      obtain ⟨a, b, hcx, ha, hcy, hb, -⟩ := seedAt_eq_ok h1
      rw [List.length_replicate] at ha
      rw [getD_replicate, if_pos ha, List.length_replicate] at hb
      -- chained lengths
      have L1 := length_seedAt h1
      have L2 := length_seedAt h2
      have L3 := length_seedAt h3
      have L4 := length_seedAt h4
      have L5 := length_seedAt h5
      have L6 := length_seedAt h6
      have L7 := length_seedAt h7
      have L8 := length_seedAt h
      have hlen : g.length = nx := by
        rw [L8.1, L7.1, L6.1, L5.1, L4.1, L3.1, L2.1, L1.1, List.length_replicate]
      -- step 6 gives 3 ≤ b
      obtain ⟨i6, j6, -, -, hq6y, -, -⟩ := seedAt_eq_ok h6
      have hb3 : 3 ≤ b := by
        have := cast_drop_eq (x := size.y / 2 * res) 3 hcy (by exact_mod_cast hq6y)
        omega
      -- step 8 gives a + 4 < nx
      obtain ⟨i8, -, hq8x, hi8, -, -, -⟩ := seedAt_eq_ok h
      have ha4 : a + 4 < nx := by
        have h84 : i8 = a + 4 :=
          cast_shift_eq (x := size.x / 2 * res) 4 hcx (by exact_mod_cast hq8x)
        rw [L7.1, L6.1, L5.1, L4.1, L3.1, L2.1, L1.1, List.length_replicate] at hi8
        omega
      -- coordinate casts for every seed statement
      have ex1 : size.x / 2 * res + 1 = ((a + 1 : ℕ) : ℚ) := by
        rw [hcx]; push_cast; ring
      have ex2 : size.x / 2 * res + 2 = ((a + 2 : ℕ) : ℚ) := by
        rw [hcx]; push_cast; ring
      have ex3 : size.x / 2 * res + 3 = ((a + 3 : ℕ) : ℚ) := by
        rw [hcx]; push_cast; ring
      have ex4 : size.x / 2 * res + 4 = ((a + 4 : ℕ) : ℚ) := by
        rw [hcx]; push_cast; ring
      have ey1 : size.y / 2 * res - 1 = ((b - 1 : ℕ) : ℚ) := by
        rw [hcy, Nat.cast_sub (by omega)]; norm_num
      have ey2 : size.y / 2 * res - 2 = ((b - 2 : ℕ) : ℚ) := by
        rw [hcy, Nat.cast_sub (by omega)]; norm_num
      have ey3 : size.y / 2 * res - 3 = ((b - 3 : ℕ) : ℚ) := by
        rw [hcy, Nat.cast_sub (by omega)]; norm_num
      -- row lengths of the final grid
      have hrows : ∀ x, x < nx → (g.getD x []).length = ny := by
        intro x hx
        rw [L8.2 x, L7.2 x, L6.2 x, L5.2 x, L4.2 x, L3.2 x, L2.2 x, L1.2 x,
          getD_replicate, if_pos hx, List.length_replicate]
      refine ⟨a, b, nx, ny, nz, hcx, hcy, rfl, rfl, rfl, ha4, hb3, hb, hlen,
        hrows, ?_⟩
      -- the z-column characterization
      intro x y
      have z1 := zlistAt_seedAt h1 x y
      have z2 := zlistAt_seedAt h2 x y
      have z3 := zlistAt_seedAt h3 x y
      have z4 := zlistAt_seedAt h4 x y
      have z5 := zlistAt_seedAt h5 x y
      have z6 := zlistAt_seedAt h6 x y
      have z7 := zlistAt_seedAt h7 x y
      have z8 := zlistAt_seedAt h x y
      rw [hcx, hcy] at z1
      rw [ex1, hcy] at z2
      rw [ex2, hcy] at z3
      rw [ex2, ey1] at z4
      rw [ex2, ey2] at z5
      rw [ex2, ey3] at z6
      rw [ex3, hcy] at z7
      rw [ex4, hcy] at z8
      simp only [Nat.cast_inj] at z1 z2 z3 z4 z5 z6 z7 z8
      have z0 : zlistAt (List.replicate nx (List.replicate ny
          (List.replicate nz (-1 : ℚ)))) x y =
          if x < nx ∧ y < ny then List.replicate nz (-1 : ℚ) else [] := by
        unfold zlistAt
        by_cases hx : x < nx
        · rw [getD_replicate, if_pos hx, getD_replicate]
          by_cases hy : y < ny
          · rw [if_pos hy, if_pos ⟨hx, hy⟩]
          · rw [if_neg hy, if_neg (by tauto)]
        · rw [getD_replicate, if_neg hx, if_neg (by tauto)]
          rfl
      by_cases hmem : (x, y) ∈ seedXY a b
      · have hmem' := hmem
        simp only [seedXY, List.mem_cons, List.not_mem_nil, or_false,
          Prod.mk.injEq] at hmem
        have hxlt : x < nx := by omega
        have hylt : y < ny := by omega
        rcases hmem with h0 | h0 | h0 | h0 | h0 | h0 | h0 | h0
        · rw [z8, if_neg (by omega), z7, if_neg (by omega), z6,
            if_neg (by omega), z5, if_neg (by omega), z4, if_neg (by omega),
            z3, if_neg (by omega), z2, if_neg (by omega), z1,
            if_pos (by omega), if_pos hmem', z0, if_pos ⟨hxlt, hylt⟩]
        · rw [z8, if_neg (by omega), z7, if_neg (by omega), z6,
            if_neg (by omega), z5, if_neg (by omega), z4, if_neg (by omega),
            z3, if_neg (by omega), z2, if_pos (by omega), z1,
            if_neg (by omega), if_pos hmem', z0, if_pos ⟨hxlt, hylt⟩]
        · rw [z8, if_neg (by omega), z7, if_neg (by omega), z6,
            if_neg (by omega), z5, if_neg (by omega), z4, if_neg (by omega),
            z3, if_pos (by omega), z2, if_neg (by omega), z1,
            if_neg (by omega), if_pos hmem', z0, if_pos ⟨hxlt, hylt⟩]
        · rw [z8, if_neg (by omega), z7, if_neg (by omega), z6,
            if_neg (by omega), z5, if_neg (by omega), z4, if_pos (by omega),
            z3, if_neg (by omega), z2, if_neg (by omega), z1,
            if_neg (by omega), if_pos hmem', z0, if_pos ⟨hxlt, hylt⟩]
        · rw [z8, if_neg (by omega), z7, if_neg (by omega), z6,
            if_neg (by omega), z5, if_pos (by omega), z4, if_neg (by omega),
            z3, if_neg (by omega), z2, if_neg (by omega), z1,
            if_neg (by omega), if_pos hmem', z0, if_pos ⟨hxlt, hylt⟩]
        · rw [z8, if_neg (by omega), z7, if_neg (by omega), z6,
            if_pos (by omega), z5, if_neg (by omega), z4, if_neg (by omega),
            z3, if_neg (by omega), z2, if_neg (by omega), z1,
            if_neg (by omega), if_pos hmem', z0, if_pos ⟨hxlt, hylt⟩]
        · rw [z8, if_neg (by omega), z7, if_pos (by omega), z6,
            if_neg (by omega), z5, if_neg (by omega), z4, if_neg (by omega),
            z3, if_neg (by omega), z2, if_neg (by omega), z1,
            if_neg (by omega), if_pos hmem', z0, if_pos ⟨hxlt, hylt⟩]
        · rw [z8, if_pos (by omega), z7, if_neg (by omega), z6,
            if_neg (by omega), z5, if_neg (by omega), z4, if_neg (by omega),
            z3, if_neg (by omega), z2, if_neg (by omega), z1,
            if_neg (by omega), if_pos hmem', z0, if_pos ⟨hxlt, hylt⟩]
      · have hmemn := hmem
        simp only [seedXY, List.mem_cons, List.not_mem_nil, or_false,
          Prod.mk.injEq, not_or] at hmem
        rw [z8, if_neg (by omega), z7, if_neg (by omega), z6,
          if_neg (by omega), z5, if_neg (by omega), z4, if_neg (by omega),
          z3, if_neg (by omega), z2, if_neg (by omega), z1,
          if_neg (by omega), if_neg hmemn, z0]


theorem arrayLen?_eq_some {q : ℚ} {n : ℕ} (h : arrayLen? q = some n) :
    q = (n : ℚ) := by
  unfold arrayLen? at h
  split at h
  next hcond =>
    obtain ⟨h1, h2⟩ := hcond
    obtain rfl := Option.some.inj h
    have hq : ((q.num.toNat : ℤ) : ℚ) = q := by
      rw [Int.toNat_of_nonneg h2]
      exact (Rat.den_eq_one_iff q).mp h1
    exact_mod_cast hq.symm
  next => cases h

/-- **C10 (amended).** Whenever `initializeGrid` succeeds, the x/y seed anchor
indices are integers with `(size.x/2)*resolution + 4` below the x extent and
`(size.y/2)*resolution - 3` at least 0 (with the anchor below the y extent);
every in-extent cell away from the eight seed positions (or at a z level other
than the z seed index) holds `-1`; and whenever the z seed index
`(size.z/2)*resolution` is an integer, the eight seed cells hold `1` (a
fractional z seed index instead writes no cell at all, and a z seed index at
the end of an empty z extent grows the inner array — both without failing; see
the counterexample). -/
theorem initializeGrid_success_characterization (res : ℚ) (size : Vec3)
    (g : Grid3) (h : initializeGrid res size = .ok g) :
    ∃ a b nx ny nz : ℕ,
      size.x / 2 * res = (a : ℚ) ∧ size.y / 2 * res = (b : ℚ) ∧
      jsToLength (size.x * res) = nx ∧ jsToLength (size.y * res) = ny ∧
      arrayLen? (size.z * res) = some nz ∧
      a + 4 < nx ∧ 3 ≤ b ∧ b < ny ∧
      (∀ x y z : ℕ, x < nx → y < ny → z < nz →
        ((x, y) ∉ seedXY a b ∨ size.z / 2 * res ≠ (z : ℚ)) →
        gridAt g x y z = -1) ∧
      (∀ c : ℕ, size.z / 2 * res = (c : ℚ) →
        ∀ p ∈ seedXY a b, gridAt g p.1 p.2 c = 1) := by
  obtain ⟨a, b, nx, ny, nz, hcx, hcy, hnx, hny, hnz, ha4, hb3, hb, hlen,
    hrows, hz⟩ := initializeGrid_ok_elim h
  refine ⟨a, b, nx, ny, nz, hcx, hcy, hnx, hny, hnz, ha4, hb3, hb, ?_, ?_⟩
  · intro x y z hx hy hzlt hcond
    have hg : gridAt g x y z = (zlistAt g x y).getD z 0 := rfl
    rw [hg, hz x y]
    rcases hcond with hns | hne
    · rw [if_neg hns, if_pos ⟨hx, hy⟩, getD_replicate, if_pos hzlt]
    · by_cases hmem : (x, y) ∈ seedXY a b
      · rw [if_pos hmem, getD_assignZ, if_neg (fun hc => hne hc.1),
          getD_replicate, if_pos hzlt]
      · rw [if_neg hmem, if_pos ⟨hx, hy⟩, getD_replicate, if_pos hzlt]
  · intro c hc p hp
    have hqz : size.z * res = (nz : ℚ) := arrayLen?_eq_some hnz
    have hcnz : nz = 2 * c := by
      have h2 : ((nz : ℕ) : ℚ) = 2 * (c : ℚ) := by
        rw [← hqz]
        have : size.z / 2 * res = size.z * res / 2 := by ring
        rw [this] at hc
        linarith
      exact_mod_cast h2
    have hg : gridAt g p.1 p.2 c = (zlistAt g p.1 p.2).getD c 0 := rfl
    rw [hg, hz p.1 p.2, if_pos hp, getD_assignZ,
      if_pos ⟨hc, by rw [List.length_replicate]; omega⟩]


theorem mem_assignZ {l : List ℚ} {q v w : ℚ} (h : w ∈ assignZ l q v) :
    w = v ∨ w ∈ l := by
  unfold assignZ at h
  split at h
  · split at h
    · rcases List.mem_or_eq_of_mem_set h with hm | he
      · exact Or.inr hm
      · exact Or.inl he
    · split at h
      · rcases List.mem_append.mp h with hm | he
        · exact Or.inr hm
        · exact Or.inl (List.mem_singleton.mp he)
      · exact Or.inr h
  · exact Or.inr h

theorem length_assignZ (l : List ℚ) (q v : ℚ) :
    (assignZ l q v).length =
      if q = (l.length : ℚ) then l.length + 1 else l.length := by
  unfold assignZ
  by_cases hden : q.den = 1 ∧ 0 ≤ q.num
  · obtain ⟨h1, h2⟩ := hden
    have hq : ((q.num.toNat : ℕ) : ℚ) = q := by
      have hzq : ((q.num.toNat : ℤ) : ℚ) = q := by
        rw [Int.toNat_of_nonneg h2]
        exact (Rat.den_eq_one_iff q).mp h1
      exact_mod_cast hzq
    have hiff : q = ((l.length : ℕ) : ℚ) ↔ q.num.toNat = l.length := by
      constructor
      · intro hc; exact_mod_cast hq.trans hc
      · intro hc; rw [← hc]; exact hq.symm
    rw [if_pos ⟨h1, h2⟩]
    by_cases hklt : q.num.toNat < l.length
    · rw [if_pos hklt, List.length_set,
        if_neg (fun hc => by have := hiff.mp hc; omega)]
    · rw [if_neg hklt]
      by_cases hkeq : q.num.toNat = l.length
      · rw [if_pos hkeq, List.length_append, if_pos (hiff.mpr hkeq)]
        rfl
      · rw [if_neg hkeq, if_neg (fun hc => hkeq (hiff.mp hc))]
  · rw [if_neg hden,
      if_neg (fun hc => hden ⟨by rw [hc]; exact Rat.den_natCast _,
        by rw [hc]; simp⟩)]

/-- **C2 (amended).** A successful construction stores the isovalue unchanged
and sizes the grid to `jsToLength(size.x * resolution)` planes of
`jsToLength(size.y * resolution)` rows each (both equal to the claimed `ceil`
whenever the product is an integer), with `size.z * resolution` — which the
allocator requires to be a non-negative integer `nz` — cells per z column (a
column can instead hold `nz + 1` cells, only when `nz = 0` and a seed write
grew it).  Every cell holds the fixed "outside" sentinel `-1` or the seed value
`1` written by the hard-coded seeding in the same call: no cell value depends
on the isovalue, and cells are not guaranteed strictly below it (see the
counterexample). -/
theorem create_shape_and_cells (res iso : ℚ) (size pos : Vec3) (v : VoxelGrid)
    (h : VoxelGrid.create res size iso pos = .ok v) :
    v.isovalue = iso ∧
      v.grid.length = jsToLength (size.x * res) ∧
      (∀ plane ∈ v.grid, plane.length = jsToLength (size.y * res)) ∧
      (∃ nz : ℕ, size.z * res = (nz : ℚ) ∧ arrayLen? (size.z * res) = some nz ∧
        ∀ plane ∈ v.grid, ∀ row ∈ plane,
          row.length = nz ∨ (row.length = nz + 1 ∧ nz = 0)) ∧
      (∀ plane ∈ v.grid, ∀ row ∈ plane, ∀ q ∈ row, q = -1 ∨ q = 1) := by
  unfold VoxelGrid.create at h
  cases hig : initializeGrid res size with
  | error e => rw [hig] at h; cases h
  | ok g =>
    rw [hig] at h
    obtain rfl := Except.ok.inj h
    obtain ⟨a, b, nx, ny, nz, hcx, hcy, hnx, hny, hnz, ha4, hb3, hb, hlen,
      hrows, hz⟩ := initializeGrid_ok_elim hig
    have hqz : size.z * res = (nz : ℚ) := arrayLen?_eq_some hnz
    refine ⟨rfl, by rw [hnx]; exact hlen, ?_, ?_, ?_⟩
    · intro plane hplane
      obtain ⟨x, hxlt, rfl⟩ := List.mem_iff_getElem.mp hplane
      have hgetD : g.getD x [] = g[x] := by
        rw [List.getD_eq_getElem?_getD, List.getElem?_eq_getElem hxlt]
        rfl
      rw [hny, ← hgetD]
      exact hrows x (by rw [← hlen]; exact hxlt)
    · refine ⟨nz, hqz, hnz, ?_⟩
      intro plane hplane row hrow
      obtain ⟨x, hxlt, rfl⟩ := List.mem_iff_getElem.mp hplane
      obtain ⟨y, hylt, rfl⟩ := List.mem_iff_getElem.mp hrow
      have hgx : g.getD x [] = g[x] := by
        rw [List.getD_eq_getElem?_getD, List.getElem?_eq_getElem hxlt]
        rfl
      have hgy : (g[x]).getD y [] = g[x][y] := by
        rw [List.getD_eq_getElem?_getD, List.getElem?_eq_getElem hylt]
        rfl
      have hrowzl : g[x][y] = zlistAt g x y := by
        unfold zlistAt
        rw [hgx, hgy]
      rw [hrowzl, hz x y]
      by_cases hmem : (x, y) ∈ seedXY a b
      · rw [if_pos hmem, length_assignZ, List.length_replicate]
        by_cases hgrow : size.z / 2 * res = (nz : ℚ)
        · have hnz0 : nz = 0 := by
            have hhalf : size.z / 2 * res = size.z * res / 2 := by ring
            rw [hhalf, hqz] at hgrow
            have : (nz : ℚ) = 2 * (nz : ℚ) := by linarith
            have h0 : (nz : ℚ) = 0 := by linarith
            exact_mod_cast h0
          rw [if_pos hgrow]
          exact Or.inr ⟨rfl, hnz0⟩
        · rw [if_neg hgrow]
          exact Or.inl rfl
      · rw [if_neg hmem]
        split
        · exact Or.inl (List.length_replicate ..)
        · exact Or.inl (by
            exfalso
            have hx : x < nx := by rw [← hlen]; exact hxlt
            have hy : y < ny := by
              have hgD : g.getD x [] = g[x] := by
                rw [List.getD_eq_getElem?_getD, List.getElem?_eq_getElem hxlt]
                rfl
              have := hrows x hx
              rw [hgD] at this
              rw [← this]
              exact hylt
            tauto)
    · intro plane hplane row hrow q hq
      obtain ⟨x, hxlt, rfl⟩ := List.mem_iff_getElem.mp hplane
      obtain ⟨y, hylt, rfl⟩ := List.mem_iff_getElem.mp hrow
      have hgx : g.getD x [] = g[x] := by
        rw [List.getD_eq_getElem?_getD, List.getElem?_eq_getElem hxlt]
        rfl
      have hgy : (g[x]).getD y [] = g[x][y] := by
        rw [List.getD_eq_getElem?_getD, List.getElem?_eq_getElem hylt]
        rfl
      have hrowzl : g[x][y] = zlistAt g x y := by
        unfold zlistAt
        rw [hgx, hgy]
      rw [hrowzl] at hq
      rw [hz x y] at hq
      split at hq
      · rcases mem_assignZ hq with h1 | hrep
        · exact Or.inr h1
        · exact Or.inl (List.eq_of_mem_replicate hrep)
      · split at hq
        · exact Or.inl (List.eq_of_mem_replicate hq)
        · cases hq

theorem jsToLength_nonpos {q : ℚ} (h : q ≤ 0) : jsToLength q = 0 := by
  unfold jsToLength
  have h1 : Int.floor q ≤ Int.floor (0 : ℚ) := Int.floor_le_floor h
  rw [Int.floor_zero] at h1
  omega

theorem qIdx?_zero (q : ℚ) : qIdx? 0 q = none := by
  unfold qIdx?
  rw [if_neg]
  rintro ⟨-, h2, h3⟩
  omega

theorem seedAt_nil (qx qy qz : ℚ) :
    seedAt [] qx qy qz = .error .typeErrorUndefined := by
  unfold seedAt
  rw [show (([] : Grid3)).length = 0 from rfl, qIdx?_zero]

theorem seedAt_emptyRows (n : ℕ) (qx qy qz : ℚ) :
    seedAt (List.replicate n ([] : List (List ℚ))) qx qy qz =
      .error .typeErrorUndefined := by
  unfold seedAt
  cases hq : qIdx? (List.replicate n ([] : List (List ℚ))).length qx with
  | none => rfl
  | some i =>
    dsimp only
    have hrow : ((List.replicate n ([] : List (List ℚ))).getD i []).length = 0 := by
      rw [getD_replicate]
      by_cases h : i < n <;> simp [h]
    rw [hrow, qIdx?_zero]

/-- **C8 (amended).** The code performs no parameter validation and defines no
`InvalidParameter` error: with a non-positive x or y extent, allocation
silently yields an empty/degenerate grid and the seeding step then fails with
a runtime type error (reading a property of a missing row); a zero z extent is
not rejected at all (see the counterexample). -/
theorem initializeGrid_nonpos_xy_extent (res : ℚ) (size : Vec3)
    (h : size.x * res ≤ 0 ∨ size.y * res ≤ 0) :
    initializeGrid res size = .error .typeErrorUndefined := by
  unfold initializeGrid
  simp only [bind, Except.bind]
  unfold allocGrid
  rcases h with h | h
  · rw [if_pos (jsToLength_nonpos h)]
    simp [seedAt_nil]
  · by_cases hx0 : jsToLength (size.x * res) = 0
    · rw [if_pos hx0]
      simp [seedAt_nil]
    · rw [if_neg hx0, if_pos (jsToLength_nonpos h)]
      simp [seedAt_emptyRows]

/-- Witness for C8 (amended): resolution 0 makes every extent 0, and
initialization fails with the runtime type error, not `InvalidParameter`. -/
theorem initializeGrid_nonpos_xy_extent_witness :
    initializeGrid 0 ⟨10, 10, 10⟩ = .error .typeErrorUndefined :=
  initializeGrid_nonpos_xy_extent 0 ⟨10, 10, 10⟩ (by norm_num)

/-- **C8 is false on the code.** At size 10×6×0 and resolution 1 the z extent
resolves to 0 — yet initialization *succeeds* (each seed assignment grows its
empty inner array by one element) instead of failing with `InvalidParameter`. -/
theorem init_zero_z_extent_succeeds_counterexample :
    jsToLength ((⟨10, 6, 0⟩ : Vec3).z * 1) = 0 ∧
      (initializeGrid 1 ⟨10, 6, 0⟩).isOk = true := by
  constructor
  · with_unfolding_all rfl
  · with_unfolding_all rfl


/-- The state a successful `new VoxelGrid(2, (5,4,1), 0, origin)` produces. -/
def initDemoState : VoxelGrid :=
  (VoxelGrid.create 2 ⟨5, 4, 1⟩ 0 ⟨0, 0, 0⟩).toOption.getD
    ⟨0, ⟨0, 0, 0⟩, 0, ⟨0, 0, 0⟩, [], [], none⟩

/-- **C2 is false on the code.** With the constructor arguments of the repo's
own driver shape (resolution 2, size 5×4×1, isovalue 0), initialization
succeeds and leaves cell (5,4,1) holding `1`, which is *not* strictly less than
the isovalue: the seeding inside `initializeGrid` writes cells at or above the
isovalue. -/
theorem create_seeds_cells_at_or_above_isovalue_counterexample :
    VoxelGrid.create 2 ⟨5, 4, 1⟩ 0 ⟨0, 0, 0⟩ = .ok initDemoState ∧
      initDemoState.isovalue = 0 ∧ gridAt initDemoState.grid 5 4 1 = 1 ∧
      ¬gridAt initDemoState.grid 5 4 1 < initDemoState.isovalue := by
  refine ⟨?_, ?_, ?_, ?_⟩
  · with_unfolding_all rfl
  · with_unfolding_all rfl
  · with_unfolding_all rfl
  · with_unfolding_all decide

/-- Witness for C2 (amended) at resolution 2, size 5×4×1, isovalue 0. -/
theorem create_shape_and_cells_witness :
    initDemoState.isovalue = 0 ∧
      initDemoState.grid.length = jsToLength ((⟨5, 4, 1⟩ : Vec3).x * 2) ∧
      (∀ plane ∈ initDemoState.grid,
        plane.length = jsToLength ((⟨5, 4, 1⟩ : Vec3).y * 2)) ∧
      (∃ nz : ℕ, (⟨5, 4, 1⟩ : Vec3).z * 2 = (nz : ℚ) ∧
        arrayLen? ((⟨5, 4, 1⟩ : Vec3).z * 2) = some nz ∧
        ∀ plane ∈ initDemoState.grid, ∀ row ∈ plane,
          row.length = nz ∨ (row.length = nz + 1 ∧ nz = 0)) ∧
      (∀ plane ∈ initDemoState.grid, ∀ row ∈ plane, ∀ q ∈ row,
        q = -1 ∨ q = 1) :=
  create_shape_and_cells 2 0 ⟨5, 4, 1⟩ ⟨0, 0, 0⟩ initDemoState
    (by with_unfolding_all rfl)

/-- The grid `initializeGrid` produces at resolution 1, size 10×6×1 (where the
z seed index is the fraction 0.5). -/
def fracSeedDemoGrid : Grid3 := (initializeGrid 1 ⟨10, 6, 1⟩).toOption.getD []

/-- **C10 is false on the code.** At size 10×6×1 and resolution 1 the z seed
index is the fraction 0.5: each seed assignment stores an object property
instead of an array element, so `initializeGrid` succeeds with *no* cell
holding `1` (all 10×6×1 cells still hold `-1`), contradicting "exactly eight
cells hold value 1" after success. -/
theorem init_fractional_z_seed_counterexample :
    initializeGrid 1 ⟨10, 6, 1⟩ = .ok fracSeedDemoGrid ∧
      ((fracSeedDemoGrid.flatMap id).flatMap id).all (fun q => decide (q = -1)) = true ∧
      fracSeedDemoGrid.length = 10 := by
  refine ⟨?_, ?_, ?_⟩ <;> with_unfolding_all rfl

/-- The grid `initializeGrid` produces at resolution 2, size 5×4×1. -/
def seedWitnessGrid : Grid3 := (initializeGrid 2 ⟨5, 4, 1⟩).toOption.getD []

/-- Witness for C10 (amended) at resolution 2, size 5×4×1 (a successful
initialization with integral seed indices). -/
theorem initializeGrid_success_characterization_witness :
    ∃ a b nx ny nz : ℕ,
      (⟨5, 4, 1⟩ : Vec3).x / 2 * 2 = (a : ℚ) ∧
      (⟨5, 4, 1⟩ : Vec3).y / 2 * 2 = (b : ℚ) ∧
      jsToLength ((⟨5, 4, 1⟩ : Vec3).x * 2) = nx ∧
      jsToLength ((⟨5, 4, 1⟩ : Vec3).y * 2) = ny ∧
      arrayLen? ((⟨5, 4, 1⟩ : Vec3).z * 2) = some nz ∧
      a + 4 < nx ∧ 3 ≤ b ∧ b < ny ∧
      (∀ x y z : ℕ, x < nx → y < ny → z < nz →
        ((x, y) ∉ seedXY a b ∨ (⟨5, 4, 1⟩ : Vec3).z / 2 * 2 ≠ (z : ℚ)) →
        gridAt seedWitnessGrid x y z = -1) ∧
      (∀ c : ℕ, (⟨5, 4, 1⟩ : Vec3).z / 2 * 2 = (c : ℚ) →
        ∀ p ∈ seedXY a b, gridAt seedWitnessGrid p.1 p.2 c = 1) :=
  initializeGrid_success_characterization 2 ⟨5, 4, 1⟩ seedWitnessGrid
    (by with_unfolding_all rfl)


end CubeMarching
